import Mathlib

/-!
Verification of the CausalityAgent KQML module (`causality_module.py`) and of
the spec's correlation-cursor contract.

The first part shallowly embeds the pure logic of `causality_module.py`:
the two relation-verb lookup tables of `respond_find_causality_target` and
`respond_find_causality_source`, and the view builder `make_indra_json`.
Python dict mutation is made explicit: `make_indra_json` returns the
post-call state of its input record next to its output, and a raised
exception (`KeyError` / `IndexError`) is an `Except.error` value.

The second part models the correlation cursor (`find_next_correlation` /
`reset_indices` of `CausalityAgent`, whose source file is not part of this
repository snapshot) from the spec's §4.3 contract.
-/

/-- A modification site `{residue, position}` as carried in the `mods1`/`mods2`
arrays of a causality record. Positions travel as strings in the JSON. -/
structure ModSite where
  residue : String
  position : String
deriving DecidableEq, Repr

/-- A causality record as consumed by `make_indra_json`:
`(id1, mods1, id2, mods2, rel)`. -/
structure Causality where
  id1 : String
  mods1 : List ModSite
  id2 : String
  mods2 : List ModSite
  rel : String
deriving DecidableEq, Repr

/-- The exceptions `make_indra_json` can raise: a `KeyError` on
`indra_relation_map[causality['rel']]` (carrying the missing key) and an
`IndexError` on `causality['mods%s' % t][0]` when that list is empty. -/
inductive PyErr where
  | keyError : String → PyErr
  | indexError : PyErr
deriving DecidableEq, Repr

/-- The INDRA-shaped JSON built by `make_indra_json`. `subjKey`/`objKey` record
which field names are used (`enz`/`sub` for phospho relations, `subj`/`obj`
otherwise). -/
structure IndraJson where
  type : String
  subjKey : String
  subjName : String
  subjMods : List ModSite
  objKey : String
  objName : String
  residue : String
  position : String
deriving DecidableEq, Repr

deriving instance DecidableEq for Except

/-- ASCII uppercase of a string, modelling Python's `str.upper()` on the
ASCII relation verbs this module uses. -/
def strToUpper (s : String) : String :=
  String.mk (s.data.map Char.toUpper)

/-- Does the character list start with the given pattern? -/
def startsWithChars : List Char → List Char → Bool
  | _, [] => true
  | [], _ :: _ => false
  | c :: cs, p :: ps => c == p && startsWithChars cs ps

/-- Does the character list contain the pattern as a contiguous sublist? -/
def charsContain : List Char → List Char → Bool
  | [], pat => pat.isEmpty
  | c :: cs, pat => startsWithChars (c :: cs) pat || charsContain cs pat

/-- Python's `pat in s` substring test. -/
def strContains (s pat : String) : Bool :=
  charsContain s.data pat.data

/-- The `indra_relation_map` dict literal inside `make_indra_json`. -/
def indra_relation_map : List (String × String) :=
  [("PHOSPHORYLATES", "Phosphorylation"),
   ("IS-PHOSPHORYLATED-BY", "Phosphorylation"),
   ("IS-DEPHOSPHORYLATED-BY", "Dephosphorylation"),
   ("UPREGULATES-EXPRESSION", "IncreaseAmount"),
   ("EXPRESSION-IS-UPREGULATED-BY", "IncreaseAmount"),
   ("DOWNREGULATES-EXPRESSION", "DecreaseAmount"),
   ("EXPRESSION-IS-DOWNREGULATED-BY", "DecreaseAmount")]

/-- `make_indra_json(causality)`. The Python function first mutates its input
in place (`causality['rel'] = causality['rel'].upper()`), then looks up
`indra_relation_map[rel]` (KeyError when absent), picks subject/object sides
by the `'IS' in rel` test and field names by the `'PHOSPHO' in rel` test, and
reads `residue`/`position` from the first element of the object-side mods
list (IndexError when empty). The returned pair is (post-call state of the
input record, outcome). -/
def make_indra_json (causality : Causality) : Causality × Except PyErr IndraJson :=
  let rel := strToUpper causality.rel
  let c := { causality with rel := rel }
  match indra_relation_map.lookup rel with
  | none => (c, .error (.keyError rel))
  | some relType =>
    let swap := strContains rel "IS"
    let idS := if swap then c.id2 else c.id1
    let modsS := if swap then c.mods2 else c.mods1
    let idT := if swap then c.id1 else c.id2
    let modsT := if swap then c.mods1 else c.mods2
    let subjKey := if strContains rel "PHOSPHO" then "enz" else "subj"
    let objKey := if strContains rel "PHOSPHO" then "sub" else "obj"
    match modsT with
    | [] => (c, .error .indexError)
    | m :: _ =>
      (c, .ok { type := relType, subjKey := subjKey, subjName := idS,
                subjMods := modsS, objKey := objKey, objName := idT,
                residue := m.residue, position := m.position })

/-- The `rel_map` dict of `respond_find_causality_target` (source-given
queries: the caller names the causal source). -/
def target_rel_map : List (String × String) :=
  [("phosphorylation", "phosphorylates"),
   ("dephosphorylation", "dephosphorylates"),
   ("activate", "upregulates-expression"),
   ("increase", "upregulates-expression"),
   ("inhibit", "downregulates-expression"),
   ("decrease", "downregulates-expression"),
   ("modulate", "modulates")]

/-- The `rel_map` dict of `respond_find_causality_source` (target-given
queries: the caller names the causal target). -/
def source_rel_map : List (String × String) :=
  [("phosphorylation", "is-phosphorylated-by"),
   ("dephosphorylation", "is-dephosphorylated-by"),
   ("activate", "expression-is-up"),
   ("increase", "upregulates-expression"),
   ("inhibit", "downregulates-expression"),
   ("decrease", "downregulates-expression"),
   ("modulate", "modulates")]

/-- A KQML reply at the level of detail the claims need: either
`(SUCCESS :paths ...)` carrying the built views, or a
`make_failure(reason)` with its reason string. -/
inductive Reply where
  | success : List IndraJson → Reply
  | failure : String → Reply
deriving DecidableEq, Repr

/-- `[make_indra_json(r) for r in result]`: builds the views left to right;
the first raised exception escapes and aborts the whole comprehension. -/
def buildIndraList : List Causality → Except PyErr (List IndraJson)
  | [] => .ok []
  | c :: cs =>
    match (make_indra_json c).2 with
    | .error e => .error e
    | .ok j =>
      match buildIndraList cs with
      | .error e => .error e
      | .ok js => .ok (j :: js)

/-- `respond_find_causality_target(content)`. `store name relVerb` stands for
`self.CA.find_causality_targets({'id': name, 'pSite': ' ', 'rel': relVerb})`,
the knowledge-graph query. `names` is the outcome of extracting names from the
`SOURCE` argument (`none`: argument missing or no names). An uncaught Python
exception from the view-building comprehension is the `Except.error` case. -/
def respond_find_causality_target (store : String → String → List Causality)
    (names : Option (List String)) (rel : String) : Except PyErr Reply :=
  match names with
  | none => .ok (.failure "MISSING_MECHANISM")
  | some [] => .ok (.failure "MISSING_MECHANISM")
  | some (targetName :: _) =>
    match target_rel_map.lookup rel with
    | none => .ok (.failure "MISSING_MECHANISM")
    | some relVerb =>
      match store targetName relVerb with
      | [] => .ok (.failure "NO_PATH_FOUND")
      | c :: cs =>
        match buildIndraList (c :: cs) with
        | .error e => .error e
        | .ok js => .ok (.success js)

/-- `respond_find_causality_source(content)`: same shape as
`respond_find_causality_target` but reads the `TARGET` argument and uses the
target-given verb table. -/
def respond_find_causality_source (store : String → String → List Causality)
    (names : Option (List String)) (rel : String) : Except PyErr Reply :=
  match names with
  | none => .ok (.failure "MISSING_MECHANISM")
  | some [] => .ok (.failure "MISSING_MECHANISM")
  | some (sourceName :: _) =>
    match source_rel_map.lookup rel with
    | none => .ok (.failure "MISSING_MECHANISM")
    | some relVerb =>
      match store sourceName relVerb with
      | [] => .ok (.failure "NO_PATH_FOUND")
      | c :: cs =>
        match buildIndraList (c :: cs) with
        | .error e => .error e
        | .ok js => .ok (.success js)

/-- One row of `correlation_table(source)`: the correlated entity and the
correlation value. The exact decimal correlation values are represented as
rationals; the cursor never computes with them, it only carries them. -/
structure CorrelationRecord where
  id2 : String
  correlation : ℚ
deriving DecidableEq, Repr

/-- A correlation record together with its computed explainability flag. -/
structure ExplainedCorrelation where
  record : CorrelationRecord
  explainable : Bool
deriving DecidableEq, Repr

/-- Outcome of one `next_correlation` call: a record, or `Exhausted` when the
cursor is past the end of the source's table. -/
inductive AdvanceResult where
  | found : ExplainedCorrelation → AdvanceResult
  | exhausted : AdvanceResult
deriving DecidableEq, Repr

/-- Modelled from the spec: the KnowledgeStore boundary of §6 as the
correlation cursor consumes it — `correlation_table(entity)` in store-native
order, and the `PathResolver.resolve(source, target, EITHER, none)` test the
cursor uses to classify a record as explainable. The implementing class
`CausalityAgent` is not part of this repository snapshot. -/
structure KnowledgeStore where
  correlation_table : String → List CorrelationRecord
  resolve : String → String → Bool

/-- Modelled from the spec (§3 CursorState): mapping from source entity to
zero-based offset, default 0 when absent; a total function with default 0. -/
def CursorState : Type := String → Nat

/-- The empty cursor state present at engine start. -/
def initialCursor : CursorState := fun _ => 0

/-- Modelled from the spec (§4.3 `advance`): `find_next_correlation(source)`
of the missing `CausalityAgent`. Reads the offset for `source` (0 if absent);
past the end of the table returns `Exhausted` and leaves the state unchanged;
otherwise returns the record at the offset with its explainability computed
by the path resolver, and increments the stored offset by 1. -/
def find_next_correlation (ks : KnowledgeStore) (st : CursorState)
    (source : String) : AdvanceResult × CursorState :=
  let table := ks.correlation_table source
  let off := st source
  if h : off < table.length then
    let r := table.get ⟨off, h⟩
    (.found ⟨r, ks.resolve source r.id2⟩,
     fun s => if s = source then off + 1 else st s)
  else
    (.exhausted, st)

/-- Modelled from the spec (§4.3 `reset`, no argument): `reset_indices()` of
the missing `CausalityAgent`, as invoked by `respond_reset_causality_indices`;
clears every stored offset back to 0. -/
def reset_indices (_st : CursorState) : CursorState := fun _ => 0

/-- `k` successive `find_next_correlation(source)` calls: the list of their
results and the final cursor state. -/
def advanceRun (ks : KnowledgeStore) (st : CursorState) (source : String) :
    Nat → List AdvanceResult × CursorState
  | 0 => ([], st)
  | n + 1 =>
    let p := find_next_correlation ks st source
    let q := advanceRun ks p.2 source n
    (p.1 :: q.1, q.2)

/-- C1 counterexample: in the target-given table of
`respond_find_causality_source`, the verb `"increase"` does NOT normalize to
`"expression-is-up"` (it maps to `"upregulates-expression"`), so the two
verbs do not both reach the EXPRESSION_IS_UP canonical form. -/
theorem increase_target_given_not_expression_is_up :
    source_rel_map.lookup "increase" ≠ some "expression-is-up" := by decide

/-- C1 (amended): for target-given queries only the verb `"activate"`
normalizes to the `"expression-is-up"` canonical relation — a form distinct
from the `"upregulates-expression"` relation used for source-given queries —
while `"increase"` normalizes to `"upregulates-expression"`, the same
canonical form as in the source-given table. -/
theorem activate_only_maps_to_expression_is_up :
    source_rel_map.lookup "activate" = some "expression-is-up"
    ∧ source_rel_map.lookup "increase" = some "upregulates-expression"
    ∧ target_rel_map.lookup "activate" = some "upregulates-expression"
    ∧ target_rel_map.lookup "increase" = some "upregulates-expression"
    ∧ ("expression-is-up" : String) ≠ "upregulates-expression" := by decide

/-- C7: source-given queries normalize `"phosphorylation"` to
`"phosphorylates"` and `"activate"`/`"increase"` to
`"upregulates-expression"`, while target-given queries normalize the same
verb `"phosphorylation"` to the inverse-phrased `"is-phosphorylated-by"`;
the two lookup tables (one per query role) are distinct. -/
theorem verb_normalization_per_query_role :
    target_rel_map.lookup "phosphorylation" = some "phosphorylates"
    ∧ target_rel_map.lookup "activate" = some "upregulates-expression"
    ∧ target_rel_map.lookup "increase" = some "upregulates-expression"
    ∧ source_rel_map.lookup "phosphorylation" = some "is-phosphorylated-by"
    ∧ target_rel_map ≠ source_rel_map := by decide

/-- C6: a relation verb with no entry in the vocabulary table makes both
query handlers return the `MISSING_MECHANISM` failure, for every knowledge
store and every name argument — the result never depends on the store, so
the knowledge graph is not consulted. -/
theorem unknown_verb_missing_mechanism
    (store : String → String → List Causality)
    (names : Option (List String)) (rel : String)
    (ht : target_rel_map.lookup rel = none)
    (hs : source_rel_map.lookup rel = none) :
    respond_find_causality_target store names rel
      = .ok (.failure "MISSING_MECHANISM")
    ∧ respond_find_causality_source store names rel
      = .ok (.failure "MISSING_MECHANISM") := by
  constructor
  · cases names with
    | none => rfl
    | some l =>
      cases l with
      | nil => rfl
      | cons n ns => simp [respond_find_causality_target, ht]
  · cases names with
    | none => rfl
    | some l =>
      cases l with
      | nil => rfl
      | cons n ns => simp [respond_find_causality_source, hs]

/-- C6 witness: the verb `"activation"` (the one the tests exercise) is in
neither table; even a store holding a result record is never consulted. -/
theorem unknown_verb_missing_mechanism_witness :
    respond_find_causality_target
      (fun nm rv => [⟨nm, [], "JUND", [⟨"S", "246"⟩], rv⟩])
      (some ["MAPK1"]) "activation" = .ok (.failure "MISSING_MECHANISM")
    ∧ respond_find_causality_source
      (fun nm rv => [⟨nm, [], "JUND", [⟨"S", "246"⟩], rv⟩])
      (some ["MAPK1"]) "activation" = .ok (.failure "MISSING_MECHANISM") :=
  unknown_verb_missing_mechanism _ (some ["MAPK1"]) "activation"
    (by decide) (by decide)

/-- When the uppercased relation is absent from `indra_relation_map`,
`make_indra_json` raises `KeyError` with that key. -/
theorem make_indra_json_keyError (c : Causality)
    (h : indra_relation_map.lookup (strToUpper c.rel) = none) :
    (make_indra_json c).2 = .error (.keyError (strToUpper c.rel)) := by
  simp [make_indra_json, h]

/-- An exception from the head of the comprehension aborts the whole list. -/
theorem buildIndraList_head_error (c : Causality) (cs : List Causality)
    (e : PyErr) (h : (make_indra_json c).2 = .error e) :
    buildIndraList (c :: cs) = .error e := by
  simp [buildIndraList, h]

/-- `respond_find_causality_target` with a mapped verb and a non-empty store
result whose records carry an unmapped canonical relation escapes with that
relation's `KeyError`. -/
theorem respond_target_keyError (store : String → String → List Causality)
    (n rel verb key : String)
    (hrel : target_rel_map.lookup rel = some verb)
    (hne : store n verb ≠ [])
    (hstore : ∀ c ∈ store n verb, c.rel = verb)
    (hkey : strToUpper verb = key)
    (hmap : indra_relation_map.lookup key = none) :
    respond_find_causality_target store (some [n]) rel
      = .error (.keyError key) := by
  cases hx : store n verb with
  | nil => exact absurd hx hne
  | cons c cs =>
    have hc : c.rel = verb := hstore c (hx ▸ List.mem_cons_self c cs)
    have hmk : (make_indra_json c).2 = .error (.keyError key) := by
      have := make_indra_json_keyError c (by rw [hc, hkey]; exact hmap)
      rw [hc, hkey] at this
      exact this
    simp [respond_find_causality_target, hrel, hx,
          buildIndraList_head_error c cs _ hmk]

/-- Target-given sibling of `respond_target_keyError`. -/
theorem respond_source_keyError (store : String → String → List Causality)
    (n rel verb key : String)
    (hrel : source_rel_map.lookup rel = some verb)
    (hne : store n verb ≠ [])
    (hstore : ∀ c ∈ store n verb, c.rel = verb)
    (hkey : strToUpper verb = key)
    (hmap : indra_relation_map.lookup key = none) :
    respond_find_causality_source store (some [n]) rel
      = .error (.keyError key) := by
  cases hx : store n verb with
  | nil => exact absurd hx hne
  | cons c cs =>
    have hc : c.rel = verb := hstore c (hx ▸ List.mem_cons_self c cs)
    have hmk : (make_indra_json c).2 = .error (.keyError key) := by
      have := make_indra_json_keyError c (by rw [hc, hkey]; exact hmap)
      rw [hc, hkey] at this
      exact this
    simp [respond_find_causality_source, hrel, hx,
          buildIndraList_head_error c cs _ hmk]

/-- C2: the canonical relations `"dephosphorylates"` (target-given verb
`"dephosphorylation"`), `"expression-is-up"` (source-given verb
`"activate"`) and `"modulates"` (verb `"modulate"`, both roles) have no
entry in `indra_relation_map`, so whenever the store returns a non-empty
result under those verbs — results carry the queried relation, per the
§4.2 relation-filter contract — the handler raises a `KeyError` instead of
returning `SUCCESS`. -/
theorem unmapped_relations_raise_keyError
    (store : String → String → List Causality) (n : String)
    (hstore : ∀ nm rv, ∀ c ∈ store nm rv, c.rel = rv)
    (h1 : store n "dephosphorylates" ≠ [])
    (h2 : store n "expression-is-up" ≠ [])
    (h3 : store n "modulates" ≠ []) :
    respond_find_causality_target store (some [n]) "dephosphorylation"
      = .error (.keyError "DEPHOSPHORYLATES")
    ∧ respond_find_causality_source store (some [n]) "activate"
      = .error (.keyError "EXPRESSION-IS-UP")
    ∧ respond_find_causality_target store (some [n]) "modulate"
      = .error (.keyError "MODULATES")
    ∧ respond_find_causality_source store (some [n]) "modulate"
      = .error (.keyError "MODULATES") :=
  ⟨respond_target_keyError store n "dephosphorylation" "dephosphorylates"
     "DEPHOSPHORYLATES" (by decide) h1 (hstore n _) (by decide) (by decide),
   respond_source_keyError store n "activate" "expression-is-up"
     "EXPRESSION-IS-UP" (by decide) h2 (hstore n _) (by decide) (by decide),
   respond_target_keyError store n "modulate" "modulates"
     "MODULATES" (by decide) h3 (hstore n _) (by decide) (by decide),
   respond_source_keyError store n "modulate" "modulates"
     "MODULATES" (by decide) h3 (hstore n _) (by decide) (by decide)⟩

/-- C2 witness: a one-record store echoing the queried relation raises on
all four verb/role combinations. -/
theorem unmapped_relations_raise_keyError_witness :
    respond_find_causality_target
      (fun nm rv => [⟨nm, [⟨"S", "1"⟩], "JUND", [⟨"T", "2"⟩], rv⟩])
      (some ["AKT1"]) "dephosphorylation"
      = .error (.keyError "DEPHOSPHORYLATES")
    ∧ respond_find_causality_source
      (fun nm rv => [⟨nm, [⟨"S", "1"⟩], "JUND", [⟨"T", "2"⟩], rv⟩])
      (some ["AKT1"]) "activate"
      = .error (.keyError "EXPRESSION-IS-UP")
    ∧ respond_find_causality_target
      (fun nm rv => [⟨nm, [⟨"S", "1"⟩], "JUND", [⟨"T", "2"⟩], rv⟩])
      (some ["AKT1"]) "modulate"
      = .error (.keyError "MODULATES")
    ∧ respond_find_causality_source
      (fun nm rv => [⟨nm, [⟨"S", "1"⟩], "JUND", [⟨"T", "2"⟩], rv⟩])
      (some ["AKT1"]) "modulate"
      = .error (.keyError "MODULATES") :=
  unmapped_relations_raise_keyError _ "AKT1"
    (fun nm rv c hc => by
      have h := List.mem_singleton.mp hc
      exact congrArg Causality.rel h)
    (by simp) (by simp) (by simp)

/-- C8 counterexample: `make_indra_json` does not leave its input record
unchanged — on a record with relation `"phosphorylates"` the post-call
record differs from the input (the relation field has been uppercased in
place). -/
theorem make_indra_json_mutates_input :
    (make_indra_json
        ⟨"MAPK1", [], "JUND", [⟨"S", "246"⟩], "phosphorylates"⟩).1
      ≠ ⟨"MAPK1", [], "JUND", [⟨"S", "246"⟩], "phosphorylates"⟩ := by decide

/-- C8 (amended): the view builder is deterministic and has exactly one
effect on its input record: it uppercases the relation field in place
(before the relation lookup, so also on the failure paths); every other
field of the input is left unchanged, and a record whose relation is
already uppercase is left fully unchanged. -/
theorem make_indra_json_frame (c : Causality) :
    (make_indra_json c).1 = { c with rel := strToUpper c.rel } := by
  simp only [make_indra_json]
  split
  · rfl
  · split <;> rfl

/-- C9: when `make_indra_json` succeeds, relations whose uppercased name
contains `"IS"` (the inverse-phrased, object→subject family) put `id2` in
the subject role with `mods2` and surface residue/position from the FIRST
entry of `mods1`; all other relations put `id1` in the subject role with
`mods1` and surface residue/position from the first entry of `mods2`.
Additional modification sites are dropped. -/
theorem make_indra_json_reading_direction (c : Causality) (j : IndraJson)
    (h : (make_indra_json c).2 = .ok j) :
    (strContains (strToUpper c.rel) "IS" = true →
      j.subjName = c.id2 ∧ j.objName = c.id1 ∧ j.subjMods = c.mods2 ∧
      c.mods1.head? = some ⟨j.residue, j.position⟩)
    ∧ (strContains (strToUpper c.rel) "IS" = false →
      j.subjName = c.id1 ∧ j.objName = c.id2 ∧ j.subjMods = c.mods1 ∧
      c.mods2.head? = some ⟨j.residue, j.position⟩) := by
  simp only [make_indra_json] at h
  split at h
  · simp at h
  · split at h
    · simp at h
    · rename_i m tail hmods
      simp only [Except.ok.injEq] at h
      subst h
      constructor
      · intro hsw
        rw [hsw] at hmods
        simp at hmods
        simp [hsw, hmods]
      · intro hsw
        rw [hsw] at hmods
        simp at hmods
        simp [hsw, hmods]

/-- C9 witness: an inverse-phrased phosphorylation record viewed through
`make_indra_json` puts `id2` (`NRAS`) in the subject role and surfaces the
first entry of `mods1`. -/
theorem make_indra_json_reading_direction_witness :
    (strContains (strToUpper "is-phosphorylated-by") "IS" = true →
      ("NRAS" : String) = "NRAS" ∧ ("BRAF" : String) = "BRAF" ∧
      ([] : List ModSite) = [] ∧
      ([(⟨"S", "601"⟩ : ModSite)].head? = some ⟨"S", "601"⟩))
    ∧ (strContains (strToUpper "is-phosphorylated-by") "IS" = false →
      ("NRAS" : String) = "BRAF" ∧ ("BRAF" : String) = "NRAS" ∧
      ([] : List ModSite) = [⟨"S", "601"⟩] ∧
      ([] : List ModSite).head? = some ⟨"S", "601"⟩) := by
  have := make_indra_json_reading_direction
    ⟨"BRAF", [⟨"S", "601"⟩], "NRAS", [], "is-phosphorylated-by"⟩
    ⟨"Phosphorylation", "enz", "NRAS", [], "sub", "BRAF", "S", "601"⟩
    (by decide)
  exact this

/-- C10: whenever the (uppercased) relation has an `indra_relation_map`
entry but the object-side modification list — `mods1` for inverse-phrased
relations, `mods2` otherwise — is empty, `make_indra_json` raises
`IndexError`: the first-entry projection is applied to every relation
family, unguarded. -/
theorem make_indra_json_empty_mods_indexError (c : Causality)
    (hrel : (indra_relation_map.lookup (strToUpper c.rel)).isSome = true)
    (hmods : (if strContains (strToUpper c.rel) "IS" = true
              then c.mods1 else c.mods2) = []) :
    (make_indra_json c).2 = .error .indexError := by
  obtain ⟨rt, hlk⟩ := Option.isSome_iff_exists.mp hrel
  simp only [make_indra_json, hlk]
  rw [hmods]

/-- C10 witness: an upregulates-expression record (not a phosphorylation)
with no object-side modification sites raises `IndexError`. -/
theorem make_indra_json_empty_mods_indexError_witness :
    (make_indra_json
        ⟨"AKT1", [⟨"S", "1"⟩], "BRAF", [], "upregulates-expression"⟩).2
      = .error .indexError :=
  make_indra_json_empty_mods_indexError
    ⟨"AKT1", [⟨"S", "1"⟩], "BRAF", [], "upregulates-expression"⟩
    (by decide) (by decide)

/-- Running the cursor `k` steps from offset `n`, while `n + k` stays within
the table, yields exactly the table slice `[n, n+k)` mapped through the
explainability classifier, and leaves the offset at `n + k`. -/
theorem advanceRun_slice (ks : KnowledgeStore) (source : String) :
    ∀ (k n : Nat) (st : CursorState), st source = n →
      n + k ≤ (ks.correlation_table source).length →
      (advanceRun ks st source k).1
        = (((ks.correlation_table source).drop n).take k).map
            (fun r => .found ⟨r, ks.resolve source r.id2⟩)
      ∧ (advanceRun ks st source k).2 source = n + k := by
  intro k
  induction k with
  | zero =>
    intro n st hst hle
    constructor
    · simp [advanceRun]
    · simpa [advanceRun] using hst
  | succ k ih =>
    intro n st hst hle
    have hlt : n < (ks.correlation_table source).length := by omega
    have hstep : find_next_correlation ks st source
        = (.found ⟨(ks.correlation_table source).get ⟨n, hlt⟩,
             ks.resolve source ((ks.correlation_table source).get ⟨n, hlt⟩).id2⟩,
           fun s => if s = source then n + 1 else st s) := by
      simp [find_next_correlation, hst, hlt]
    have hst' : (fun s => if s = source then n + 1 else st s) source = n + 1 := by
      simp
    have hle' : (n + 1) + k ≤ (ks.correlation_table source).length := by omega
    obtain ⟨ih1, ih2⟩ :=
      ih (n + 1) (fun s => if s = source then n + 1 else st s) hst' hle'
    constructor
    · show (find_next_correlation ks st source).1
          :: (advanceRun ks (find_next_correlation ks st source).2 source k).1
          = _
      rw [hstep]
      dsimp only
      have hdrop : (ks.correlation_table source).get ⟨n, hlt⟩
            :: (ks.correlation_table source).drop (n + 1)
          = (ks.correlation_table source).drop n := by
        exact List.getElem_cons_drop (ks.correlation_table source) n hlt
      rw [ih1, ← hdrop, List.take_succ_cons, List.map_cons]
    · show (advanceRun ks (find_next_correlation ks st source).2 source k).2 source = _
      rw [hstep]
      simpa [Nat.add_assoc, Nat.add_comm 1 k] using ih2

/-- C3: from a fresh cursor, `k` successive `find_next_correlation(S)` calls
(`k` at most the table length, no intervening reset) return exactly the
first `k` records of `correlation_table(S)` in store-native order, each
once, each paired with its independently computed explainability flag; the
call after the last record returns `Exhausted`. -/
theorem next_correlation_first_k (ks : KnowledgeStore) (S : String) (k : Nat)
    (hk : k ≤ (ks.correlation_table S).length) :
    (advanceRun ks initialCursor S k).1
      = ((ks.correlation_table S).take k).map
          (fun r => .found ⟨r, ks.resolve S r.id2⟩)
    ∧ (find_next_correlation ks
        (advanceRun ks initialCursor S ((ks.correlation_table S).length)).2
        S).1 = .exhausted := by
  have h0 : initialCursor S = 0 := rfl
  obtain ⟨h1, _⟩ := advanceRun_slice ks S k 0 initialCursor h0 (by omega)
  obtain ⟨_, h2⟩ := advanceRun_slice ks S ((ks.correlation_table S).length) 0
    initialCursor h0 (by omega)
  refine ⟨by simpa using h1, ?_⟩
  simp [find_next_correlation, h2]

/-- C3 witness: the AKT1 scenario — three records in store-native order
(AGPS has the largest magnitude but stays third), flags computed per
record, fourth call exhausted. -/
theorem next_correlation_first_k_witness :
    (advanceRun
      ⟨fun s => if s = "AKT1" then
          [⟨"BRAF", 0.7610843243760473⟩, ⟨"PTPN1", 0.5810614181861488⟩,
           ⟨"AGPS", 0.9499963680618807⟩] else [],
       fun s t => s = "AKT1" && (t = "BRAF" || t = "PTPN1")⟩
      initialCursor "AKT1" 3).1
      = [.found ⟨⟨"BRAF", 0.7610843243760473⟩, true⟩,
         .found ⟨⟨"PTPN1", 0.5810614181861488⟩, true⟩,
         .found ⟨⟨"AGPS", 0.9499963680618807⟩, false⟩]
    ∧ (find_next_correlation
        ⟨fun s => if s = "AKT1" then
            [⟨"BRAF", 0.7610843243760473⟩, ⟨"PTPN1", 0.5810614181861488⟩,
             ⟨"AGPS", 0.9499963680618807⟩] else [],
         fun s t => s = "AKT1" && (t = "BRAF" || t = "PTPN1")⟩
        (advanceRun
          ⟨fun s => if s = "AKT1" then
              [⟨"BRAF", 0.7610843243760473⟩, ⟨"PTPN1", 0.5810614181861488⟩,
               ⟨"AGPS", 0.9499963680618807⟩] else [],
           fun s t => s = "AKT1" && (t = "BRAF" || t = "PTPN1")⟩
          initialCursor "AKT1"
          ((KnowledgeStore.correlation_table
            ⟨fun s => if s = "AKT1" then
                [⟨"BRAF", 0.7610843243760473⟩, ⟨"PTPN1", 0.5810614181861488⟩,
                 ⟨"AGPS", 0.9499963680618807⟩] else [],
             fun s t => s = "AKT1" && (t = "BRAF" || t = "PTPN1")⟩ "AKT1").length)).2
        "AKT1").1 = .exhausted := by
  have h := next_correlation_first_k
    ⟨fun s => if s = "AKT1" then
        [⟨"BRAF", 0.7610843243760473⟩, ⟨"PTPN1", 0.5810614181861488⟩,
         ⟨"AGPS", 0.9499963680618807⟩] else [],
     fun s t => s = "AKT1" && (t = "BRAF" || t = "PTPN1")⟩
    "AKT1" 3 (by decide)
  refine ⟨?_, h.2⟩
  rw [h.1]
  rfl

/-- C4: a reset (`RESET-CAUSALITY-INDICES` → `reset_indices()`) followed by
`find_next_correlation(S)` returns the first record of the table again —
the exact outcome of the very first call ever made on the fresh engine. -/
theorem reset_then_advance_roundtrip (ks : KnowledgeStore) (st : CursorState)
    (S : String) (r : CorrelationRecord) (rest : List CorrelationRecord)
    (h : ks.correlation_table S = r :: rest) :
    (find_next_correlation ks (reset_indices st) S).1
      = .found ⟨r, ks.resolve S r.id2⟩
    ∧ (find_next_correlation ks (reset_indices st) S).1
      = (find_next_correlation ks initialCursor S).1 := by
  have hfirst : (find_next_correlation ks initialCursor S).1
      = .found ⟨r, ks.resolve S r.id2⟩ := by
    simp [find_next_correlation, initialCursor, h]
  exact ⟨hfirst, hfirst.trans hfirst.symm⟩

/-- C4 witness: after three advances on AKT1, a reset makes the next call
return the BRAF record again, as the very first call did. -/
theorem reset_then_advance_roundtrip_witness :
    (find_next_correlation
      ⟨fun s => if s = "AKT1" then
          [⟨"BRAF", 0.7610843243760473⟩, ⟨"PTPN1", 0.5810614181861488⟩,
           ⟨"AGPS", 0.9499963680618807⟩] else [],
       fun s t => s = "AKT1" && (t = "BRAF" || t = "PTPN1")⟩
      (reset_indices (fun _ => 3)) "AKT1").1
      = .found ⟨⟨"BRAF", 0.7610843243760473⟩, true⟩
    ∧ (find_next_correlation
        ⟨fun s => if s = "AKT1" then
            [⟨"BRAF", 0.7610843243760473⟩, ⟨"PTPN1", 0.5810614181861488⟩,
             ⟨"AGPS", 0.9499963680618807⟩] else [],
         fun s t => s = "AKT1" && (t = "BRAF" || t = "PTPN1")⟩
        (reset_indices (fun _ => 3)) "AKT1").1
      = (find_next_correlation
          ⟨fun s => if s = "AKT1" then
              [⟨"BRAF", 0.7610843243760473⟩, ⟨"PTPN1", 0.5810614181861488⟩,
               ⟨"AGPS", 0.9499963680618807⟩] else [],
           fun s t => s = "AKT1" && (t = "BRAF" || t = "PTPN1")⟩
          initialCursor "AKT1").1 := by
  have h := reset_then_advance_roundtrip
    ⟨fun s => if s = "AKT1" then
        [⟨"BRAF", 0.7610843243760473⟩, ⟨"PTPN1", 0.5810614181861488⟩,
         ⟨"AGPS", 0.9499963680618807⟩] else [],
     fun s t => s = "AKT1" && (t = "BRAF" || t = "PTPN1")⟩
    (fun _ => 3) "AKT1" ⟨"BRAF", 0.7610843243760473⟩
    [⟨"PTPN1", 0.5810614181861488⟩, ⟨"AGPS", 0.9499963680618807⟩]
    (by simp)
  refine ⟨?_, h.2⟩
  rw [h.1]
  rfl

/-- C5: a source whose correlation table is empty — e.g. an unknown source —
yields `Exhausted` on the very first call and on every later one: the call
is a total function returning the distinguished `exhausted` value (a
non-error outcome, a different constructor from any found record) and
leaves the cursor state untouched. -/
theorem empty_table_exhausted (ks : KnowledgeStore) (st : CursorState)
    (S : String) (h : ks.correlation_table S = []) :
    (find_next_correlation ks st S).1 = .exhausted
    ∧ (find_next_correlation ks st S).2 = st
    ∧ ∀ ec : ExplainedCorrelation,
        (AdvanceResult.exhausted = .found ec) = False := by
  refine ⟨?_, ?_, ?_⟩
  · simp [find_next_correlation, h]
  · simp [find_next_correlation, h]
  · intro ec
    simp

/-- C5 witness: an unknown source `"XYZ"` is exhausted immediately on the
first call of a fresh engine. -/
theorem empty_table_exhausted_witness :
    (find_next_correlation
      ⟨fun s => if s = "AKT1" then [⟨"BRAF", 0.7610843243760473⟩] else [],
       fun _ _ => false⟩ initialCursor "XYZ").1 = .exhausted
    ∧ (find_next_correlation
        ⟨fun s => if s = "AKT1" then [⟨"BRAF", 0.7610843243760473⟩] else [],
         fun _ _ => false⟩ initialCursor "XYZ").2 = initialCursor
    ∧ ∀ ec : ExplainedCorrelation,
        (AdvanceResult.exhausted = .found ec) = False :=
  empty_table_exhausted
    ⟨fun s => if s = "AKT1" then [⟨"BRAF", 0.7610843243760473⟩] else [],
     fun _ _ => false⟩ initialCursor "XYZ" (by simp)

